import Mathlib

/-
Shallow embedding of src/dev/src/modules/auth/auth.service.ts
(class AuthService: register, login, validateUser, generateTokens).

Modelling decisions, each noted at its definition:
  - the MikroORM EntityManager is modelled as an explicit record of the
    three entity tables; `persistAndFlush` of a freshly created entity
    appends it, `persistAndFlush` of an already persisted entity replaces
    the stored record with the same id;
  - `jwtService.signAsync(payload, options)` is modelled as building a
    structured signed token whose claims decode by projection;
  - all the `new Date()` and `Date.now()` calls inside one request are
    collapsed to a single request timestamp `env.now` (milliseconds);
  - database generated ids, `crypto.randomUUID()`, the environment
    secrets and the jwt configuration are inputs bundled in `Env`.
-/

namespace AuthSvc

/-- Modelled from the spec: the Users entity (db/entitis/Users is not in
the provided sources) has role enumerated as OWNER and others. -/
inductive UserRole where
  | OWNER
  | ADMIN
  | MEMBER
  deriving DecidableEq, Repr

def UserRole.toStr : UserRole → String
  | .OWNER => "OWNER"
  | .ADMIN => "ADMIN"
  | .MEMBER => "MEMBER"

/-- Modelled from the spec: the Users entity record, fields as listed in
the data model section and as used by auth.service.ts. -/
structure Users where
  id : String
  email : String
  passwordHash : String
  role : UserRole
  isActive : Bool
  isEmailVerified : Bool
  organizationId : String
  projectIds : List String
  createdAt : Nat
  updatedAt : Nat
  deriving DecidableEq, Repr

/-- Modelled from the spec: the Organization entity. `userIds` is an
Option because the source guards `if (createOrganization.userIds)` on
its truthiness before pushing (an empty array is truthy, so it is
`some []` at creation). -/
structure Organization where
  id : String
  name : String
  userIds : Option (List String)
  createdAt : Nat
  updatedAt : Nat
  deriving DecidableEq, Repr

/-- Claims carried inside a signed token: the source signs payloads with
`sub` always present and `email`, `role`, `jti` present on some paths. -/
structure JwtClaims where
  sub : String
  email : Option String
  role : Option String
  jti : Option String
  deriving DecidableEq, Repr

/-- The options argument of `jwtService.signAsync`. -/
structure SignOptions where
  secret : String
  expiresIn : Option String
  issuer : Option String
  audience : Option String
  deriving DecidableEq, Repr

/-- Model of the signed token string produced by `jwtService.signAsync`:
the claims and the signing options it was built from. Decoding a token
is projecting `claims`. -/
structure SignedToken where
  claims : JwtClaims
  options : SignOptions
  deriving DecidableEq, Repr

/-- Modelled from the spec: the Session entity. Token strings are
represented by the `SignedToken` model. -/
structure Session where
  id : String
  accessToken : SignedToken
  refreshToken : SignedToken
  user : String
  expiresAt : Nat
  revoked : Bool
  createdAt : Nat
  deriving DecidableEq, Repr

/-- The `Tokens` interface of auth.service.ts. -/
structure Tokens where
  accessToken : SignedToken
  refreshToken : SignedToken
  deriving DecidableEq, Repr

/-- The user record as returned to the caller. `passwordHash` is an
Option: `some` when the field survives into the returned object, `none`
when the destructuring removed it. -/
structure ReturnedUser where
  id : String
  email : String
  passwordHash : Option String
  role : UserRole
  isActive : Bool
  isEmailVerified : Bool
  organizationId : String
  projectIds : List String
  createdAt : Nat
  updatedAt : Nat
  deriving DecidableEq, Repr

/-- The success value of register and login: `{ user, tokens }`. -/
structure AuthResult where
  user : ReturnedUser
  tokens : Tokens
  deriving DecidableEq, Repr

/-- The typed HTTP exceptions thrown by the service. -/
inductive AuthError where
  | conflict (msg : String)
  | unauthorized (msg : String)
  deriving DecidableEq, Repr

/-- The persistence state: the three entity tables reached through the
EntityManager. -/
structure DbState where
  users : List Users
  organizations : List Organization
  sessions : List Session
  deriving DecidableEq, Repr

/-- Per-request inputs that the source reads from the outside world:
the request timestamp, database generated ids, `crypto.randomUUID()`,
`process.env.AT_SECRET` and `process.env.RT_SECRET`, and (modelled from
the spec, src/config/jwt.config.ts is not in the provided sources) the
fields of `jwtConfig` and `refreshTokenConfig`. -/
structure Env where
  now : Nat
  orgId : String
  userId : String
  sessionId : String
  uuid : String
  atSecret : String
  rtSecret : String
  jwtSecret : String
  jwtExpiresIn : Option String
  jwtIssuer : Option String
  jwtAudience : Option String
  rtConfigSecret : String
  rtConfigExpiresIn : String
  deriving DecidableEq, Repr

/-- The RegisterDto fields used by the service. -/
structure RegisterDto where
  email : String
  password : String
  organizationName : String
  deriving DecidableEq, Repr

/-- The LoginDto fields used by the service. -/
structure LoginDto where
  email : String
  password : String
  deriving DecidableEq, Repr

/-- Model of `bcrypt.hash(plaintext, cost)`: an injective tagging of the
plaintext with the cost (the salt is abstracted away, making the hash
deterministic). -/
def bcryptHash (plaintext : String) (cost : Nat) : String :=
  "bcrypt:" ++ toString cost ++ ":" ++ plaintext

/-- Model of `bcrypt.compare(plaintext, hash)`: true exactly when the
hash is the stored hash of the plaintext at the work factor 12 used by
this service. -/
def bcryptCompare (plaintext hash : String) : Bool :=
  hash == bcryptHash plaintext 12

/-- Outcome of a register call: the persistence state after the call and
the returned value or thrown exception. -/
structure RegisterOutcome where
  state : DbState
  result : Except AuthError AuthResult
  deriving Repr

/-- Outcome of a login call. `didCompare` records whether
`bcrypt.compare` was executed on this path; `didFlush` records whether
`persistAndFlush` was executed. -/
structure LoginOutcome where
  state : DbState
  result : Except AuthError AuthResult
  didCompare : Bool
  didFlush : Bool
  deriving Repr

/-- `generateTokens(userId, email, role)` of auth.service.ts: signs the
access token with `jwtConfig` and the refresh token with
`refreshTokenConfig`, both payloads carrying sub, email and role, both
using the issuer and audience of `jwtConfig.signOptions`. -/
def generateTokens (env : Env) (userId : String) (email : String)
    (role : UserRole) : Tokens :=
  { accessToken :=
      { claims := { sub := userId, email := some email,
                    role := some role.toStr, jti := none },
        options := { secret := env.jwtSecret, expiresIn := env.jwtExpiresIn,
                     issuer := env.jwtIssuer, audience := env.jwtAudience } },
    refreshToken :=
      { claims := { sub := userId, email := some email,
                    role := some role.toStr, jti := none },
        options := { secret := env.rtConfigSecret,
                     expiresIn := some env.rtConfigExpiresIn,
                     issuer := env.jwtIssuer, audience := env.jwtAudience } } }

/-- `register(registerDto)` of auth.service.ts, line by line:
lookup by email and throw Conflict if found; hash the password at cost
12; create and flush the Organization with empty userIds; create and
flush the User (role OWNER, isActive true, isEmailVerified false);
push the user id onto the userIds of the organization (or replace with a
singleton when the array is missing) and flush; sign the access token
(payload only sub, secret AT_SECRET, 15m, audience spa, issuer your-app)
and the refresh token (payload sub and a random jti, secret RT_SECRET,
7d); create and flush the Session expiring 7 days ahead, not revoked;
return the user and the token pair. The rest destructuring
`const { ...userWithoutSensitiveData } = user` extracts no field, so the
returned user keeps passwordHash (`some`). -/
def register (st : DbState) (env : Env) (dto : RegisterDto) :
    RegisterOutcome :=
  match st.users.find? (fun u => u.email == dto.email) with
  | some _ =>
      { state := st,
        result := .error (.conflict "User with this email already exists") }
  | none =>
      let hashedPassword := bcryptHash dto.password 12
      let createOrganization : Organization :=
        { id := env.orgId, name := dto.organizationName,
          createdAt := env.now, updatedAt := env.now, userIds := some [] }
      let st1 : DbState :=
        { st with organizations := st.organizations ++ [createOrganization] }
      let user : Users :=
        { id := env.userId, email := dto.email,
          passwordHash := hashedPassword, role := .OWNER,
          isActive := true, isEmailVerified := false,
          createdAt := env.now, updatedAt := env.now,
          organizationId := createOrganization.id, projectIds := [] }
      let st2 : DbState := { st1 with users := st1.users ++ [user] }
      let orgUpdated : Organization :=
        match createOrganization.userIds with
        | some ids => { createOrganization with userIds := some (ids ++ [user.id]) }
        | none => { createOrganization with userIds := some [user.id] }
      let st3 : DbState :=
        { st2 with organizations :=
            st2.organizations.map (fun o => if o.id == orgUpdated.id then orgUpdated else o) }
      let access : SignedToken :=
        { claims := { sub := user.id, email := none, role := none, jti := none },
          options := { secret := env.atSecret, expiresIn := some "15m",
                       audience := some "spa", issuer := some "your-app" } }
      let refresh : SignedToken :=
        { claims := { sub := user.id, email := none, role := none,
                      jti := some env.uuid },
          options := { secret := env.rtSecret, expiresIn := some "7d",
                       audience := some "spa", issuer := some "your-app" } }
      let session : Session :=
        { id := env.sessionId, accessToken := access, refreshToken := refresh,
          user := user.id, expiresAt := env.now + 7 * 24 * 60 * 60 * 1000,
          revoked := false, createdAt := env.now }
      let st4 : DbState := { st3 with sessions := st3.sessions ++ [session] }
      { state := st4,
        result := .ok
          { user := { id := user.id, email := user.email,
                      passwordHash := some user.passwordHash,
                      role := user.role, isActive := user.isActive,
                      isEmailVerified := user.isEmailVerified,
                      organizationId := user.organizationId,
                      projectIds := user.projectIds,
                      createdAt := user.createdAt, updatedAt := user.updatedAt },
            tokens := { accessToken := access, refreshToken := refresh } } }

/-- `login(loginDto)` of auth.service.ts, line by line: lookup by email,
Unauthorized("User not found") when absent; Unauthorized("User account
is deactivated") when not isActive; compare the password with the stored
hash, Unauthorized("Password is incorrect") on mismatch; generate the
token pair via generateTokens; set updatedAt and flush the user; return
the user without passwordHash (the destructuring
`const { passwordHash, ...userWithoutSensitiveData } = user` removes the
field, hence `none`) plus the tokens. -/
def login (st : DbState) (env : Env) (dto : LoginDto) : LoginOutcome :=
  match st.users.find? (fun u => u.email == dto.email) with
  | none =>
      { state := st, result := .error (.unauthorized "User not found"),
        didCompare := false, didFlush := false }
  | some user =>
      if user.isActive = false then
        { state := st,
          result := .error (.unauthorized "User account is deactivated"),
          didCompare := false, didFlush := false }
      else if bcryptCompare dto.password user.passwordHash = false then
        { state := st,
          result := .error (.unauthorized "Password is incorrect"),
          didCompare := true, didFlush := false }
      else
        let tokens := generateTokens env user.id user.email user.role
        let updatedUser : Users := { user with updatedAt := env.now }
        { state :=
            { st with users :=
                st.users.map (fun u => if u.id == updatedUser.id then updatedUser else u) },
          result := .ok
            { user := { id := updatedUser.id, email := updatedUser.email,
                        passwordHash := none,
                        role := updatedUser.role,
                        isActive := updatedUser.isActive,
                        isEmailVerified := updatedUser.isEmailVerified,
                        organizationId := updatedUser.organizationId,
                        projectIds := updatedUser.projectIds,
                        createdAt := updatedUser.createdAt,
                        updatedAt := updatedUser.updatedAt },
              tokens := tokens },
          didCompare := true, didFlush := true }

/-- `validateUser(id)` of auth.service.ts: `findOne(Users, { id,
isActive: true })`, returning the record or null and never throwing. -/
def validateUser (st : DbState) (id : String) : Option Users :=
  st.users.find? (fun u => u.id == id && u.isActive)

/-- The User record created by a fresh-email register call. -/
def regUser (env : Env) (dto : RegisterDto) : Users :=
  { id := env.userId, email := dto.email,
    passwordHash := bcryptHash dto.password 12, role := .OWNER,
    isActive := true, isEmailVerified := false,
    createdAt := env.now, updatedAt := env.now,
    organizationId := env.orgId, projectIds := [] }

/-- The Organization record as stored after the membership update flush. -/
def regOrgFinal (env : Env) (dto : RegisterDto) : Organization :=
  { id := env.orgId, name := dto.organizationName,
    createdAt := env.now, updatedAt := env.now,
    userIds := some [env.userId] }

/-- The access token signed by the register path. -/
def regAccess (env : Env) : SignedToken :=
  { claims := { sub := env.userId, email := none, role := none, jti := none },
    options := { secret := env.atSecret, expiresIn := some "15m",
                 audience := some "spa", issuer := some "your-app" } }

/-- The refresh token signed by the register path. -/
def regRefresh (env : Env) : SignedToken :=
  { claims := { sub := env.userId, email := none, role := none,
                jti := some env.uuid },
    options := { secret := env.rtSecret, expiresIn := some "7d",
                 audience := some "spa", issuer := some "your-app" } }

/-- The Session record created by the register path. -/
def regSession (env : Env) : Session :=
  { id := env.sessionId, accessToken := regAccess env,
    refreshToken := regRefresh env, user := env.userId,
    expiresAt := env.now + 7 * 24 * 60 * 60 * 1000,
    revoked := false, createdAt := env.now }

/-- The user record returned by the register path (passwordHash kept,
see the comment on register). -/
def regReturnedUser (env : Env) (dto : RegisterDto) : ReturnedUser :=
  { id := env.userId, email := dto.email,
    passwordHash := some (bcryptHash dto.password 12), role := .OWNER,
    isActive := true, isEmailVerified := false,
    organizationId := env.orgId, projectIds := [],
    createdAt := env.now, updatedAt := env.now }

/-- Mapping a function that fixes every element of a list is the
identity on that list. -/
theorem map_fix {α : Type} (f : α → α) (l : List α)
    (h : ∀ x ∈ l, f x = x) : l.map f = l := by
  induction l with
  | nil => rfl
  | cons a t ih =>
      rw [List.map_cons, h a (List.mem_cons_self a t),
        ih (fun x hx => h x (List.mem_cons_of_mem a hx))]

/-- Evaluation of register when the email lookup finds nothing. -/
theorem register_fresh_eq (st : DbState) (env : Env) (dto : RegisterDto)
    (hfind : st.users.find? (fun u => u.email == dto.email) = none) :
    register st env dto =
      { state :=
          { users := st.users ++ [regUser env dto],
            organizations :=
              st.organizations.map (fun o => if o.id == env.orgId then regOrgFinal env dto else o)
                ++ [regOrgFinal env dto],
            sessions := st.sessions ++ [regSession env] },
        result := .ok
          { user := regReturnedUser env dto,
            tokens := { accessToken := regAccess env,
                        refreshToken := regRefresh env } } } := by
  simp [register, hfind, regUser, regOrgFinal, regAccess, regRefresh,
    regSession, regReturnedUser]

/-- A fresh email makes the lookup in register and login return none. -/
theorem find?_email_none (l : List Users) (e : String)
    (h : ∀ u ∈ l, u.email ≠ e) :
    l.find? (fun u => u.email == e) = none := by
  rw [List.find?_eq_none]
  intro u hu
  simp [h u hu]

/-- C2: when a user with the given email already exists, register fails
with Conflict("User with this email already exists") and leaves the
persistence state unchanged. -/
theorem register_conflict_on_existing_email (st : DbState) (env : Env)
    (dto : RegisterDto) (h : ∃ u ∈ st.users, u.email = dto.email) :
    (register st env dto).result
        = .error (.conflict "User with this email already exists") ∧
    (register st env dto).state = st := by
  obtain ⟨u, hu, he⟩ := h
  have hsome : (st.users.find? (fun u => u.email == dto.email)).isSome := by
    rw [List.find?_isSome]
    exact ⟨u, hu, by simp [he]⟩
  obtain ⟨v, hv⟩ := Option.isSome_iff_exists.mp hsome
  simp [register, hv]

/-- C3: when no user with the given email exists, register creates
exactly one Organization, one User with role OWNER, active and not
email-verified, and one Session, and the userIds list of the stored
Organization is the singleton of the new user id. -/
theorem register_fresh_email_creates (st : DbState) (env : Env)
    (dto : RegisterDto)
    (hEmail : ∀ u ∈ st.users, u.email ≠ dto.email)
    (hOrg : ∀ o ∈ st.organizations, o.id ≠ env.orgId) :
    ∃ user org sess,
      (register st env dto).state.users = st.users ++ [user] ∧
      (register st env dto).state.organizations = st.organizations ++ [org] ∧
      (register st env dto).state.sessions = st.sessions ++ [sess] ∧
      user.role = UserRole.OWNER ∧ user.isActive = true ∧
      user.isEmailVerified = false ∧ org.userIds = some [user.id] := by
  rw [register_fresh_eq st env dto (find?_email_none st.users dto.email hEmail)]
  refine ⟨regUser env dto, regOrgFinal env dto, regSession env,
    rfl, ?_, rfl, rfl, rfl, rfl, rfl⟩
  have : st.organizations.map
      (fun o => if o.id == env.orgId then regOrgFinal env dto else o)
      = st.organizations :=
    map_fix _ _ (fun o ho => by simp [hOrg o ho])
  rw [this]
/-- C4: login on an email with no stored user fails with
Unauthorized("User not found") and never reaches bcrypt.compare. -/
theorem login_user_not_found (st : DbState) (env : Env) (dto : LoginDto)
    (h : ∀ u ∈ st.users, u.email ≠ dto.email) :
    (login st env dto).result = .error (.unauthorized "User not found") ∧
    (login st env dto).didCompare = false := by
  simp [login, find?_email_none st.users dto.email h]

/-- C5: when the looked-up user is inactive, login fails with
Unauthorized("User account is deactivated"), even when the supplied
password matches the stored hash. -/
theorem login_inactive_user (st : DbState) (env : Env) (dto : LoginDto)
    (u : Users)
    (hfind : st.users.find? (fun v => v.email == dto.email) = some u)
    (hinactive : u.isActive = false)
    (_hmatch : bcryptCompare dto.password u.passwordHash = true) :
    (login st env dto).result
      = .error (.unauthorized "User account is deactivated") := by
  simp [login, hfind, hinactive]

/-- Evaluation of login when the three checks pass. -/
theorem login_success_eq (st : DbState) (env : Env) (dto : LoginDto)
    (u : Users)
    (hfind : st.users.find? (fun v => v.email == dto.email) = some u)
    (hactive : u.isActive = true)
    (hmatch : bcryptCompare dto.password u.passwordHash = true) :
    login st env dto =
      { state :=
          { st with users :=
              st.users.map (fun v => if v.id == u.id then { u with updatedAt := env.now } else v) },
        result := .ok
          { user := { id := u.id, email := u.email, passwordHash := none,
                      role := u.role, isActive := u.isActive,
                      isEmailVerified := u.isEmailVerified,
                      organizationId := u.organizationId,
                      projectIds := u.projectIds,
                      createdAt := u.createdAt, updatedAt := env.now },
            tokens := generateTokens env u.id u.email u.role },
        didCompare := true, didFlush := true } := by
  simp [login, hfind, hactive, hmatch]

/-- C6: login with an active user and a matching password succeeds, and
the claims of both returned tokens carry the id of that user as their
subject. -/
theorem login_success_token_subject (st : DbState) (env : Env)
    (dto : LoginDto) (u : Users)
    (hfind : st.users.find? (fun v => v.email == dto.email) = some u)
    (hactive : u.isActive = true)
    (hmatch : bcryptCompare dto.password u.passwordHash = true) :
    ∃ r, (login st env dto).result = .ok r ∧
      r.tokens.accessToken.claims.sub = u.id ∧
      r.tokens.refreshToken.claims.sub = u.id := by
  rw [login_success_eq st env dto u hfind hactive hmatch]
  exact ⟨_, rfl, rfl, rfl⟩

/-- C10: whenever login fails, the persistence state is unchanged and no
flush was performed: the only flush in the login path comes after all
three checks pass. -/
theorem login_error_no_write (st : DbState) (env : Env) (dto : LoginDto)
    (e : AuthError) (h : (login st env dto).result = .error e) :
    (login st env dto).state = st ∧ (login st env dto).didFlush = false := by
  cases hfind : st.users.find? (fun u => u.email == dto.email) with
  | none => simp [login, hfind]
  | some u =>
      by_cases h1 : u.isActive = false
      · simp [login, hfind, h1]
      · by_cases h2 : bcryptCompare dto.password u.passwordHash = false
        · simp [login, hfind, h1, h2]
        · exfalso
          simp [login, hfind, h1, h2] at h

/-- C8: a fresh-email register call appends exactly one Session record,
expiring exactly 7 days after its creation timestamp and not revoked,
while login never creates or updates a Session on any path. -/
theorem register_session_login_no_session (st : DbState) (env : Env)
    (dto : RegisterDto) (st2 : DbState) (env2 : Env) (dto2 : LoginDto)
    (hEmail : ∀ u ∈ st.users, u.email ≠ dto.email) :
    (∃ s, (register st env dto).state.sessions = st.sessions ++ [s] ∧
        s.expiresAt = s.createdAt + 7 * 24 * 60 * 60 * 1000 ∧
        s.revoked = false) ∧
    (login st2 env2 dto2).state.sessions = st2.sessions := by
  constructor
  · rw [register_fresh_eq st env dto (find?_email_none st.users dto.email hEmail)]
    exact ⟨regSession env, rfl, rfl, rfl⟩
  · cases hfind : st2.users.find? (fun u => u.email == dto2.email) with
    | none => simp [login, hfind]
    | some u =>
        by_cases h1 : u.isActive = false
        · simp [login, hfind, h1]
        · by_cases h2 : bcryptCompare dto2.password u.passwordHash = false
          · simp [login, hfind, h1, h2]
          · simp [login, hfind, h1, h2]

/-- C9: validateUser returns only stored, matching, active user records,
and returns none exactly when no stored user has the given id and the
active flag set; being a total function it never throws. -/
theorem validateUser_spec (st : DbState) (id : String) :
    (∀ u, validateUser st id = some u →
        u ∈ st.users ∧ u.id = id ∧ u.isActive = true) ∧
    (validateUser st id = none ↔
        ∀ u ∈ st.users, ¬(u.id = id ∧ u.isActive = true)) := by
  constructor
  · intro u hu
    have hmem := List.mem_of_find?_eq_some hu
    have hp := List.find?_some hu
    simp only [Bool.and_eq_true, beq_iff_eq] at hp
    exact ⟨hmem, hp.1, hp.2⟩
  · unfold validateUser
    rw [List.find?_eq_none]
    constructor
    · intro hall u hu
      have := hall u hu
      simpa using this
    · intro hall u hu
      have := hall u hu
      simpa using this

/-- C7 amended: the tokens issued by generateTokens (the login path)
both carry sub, email and role in their claims, while the tokens signed
inline by register carry only sub, the refresh token additionally the
random jti — neither register token carries email or role. -/
theorem token_claims_by_path (env : Env) (uid em : String)
    (role : UserRole) (st : DbState) (dto : RegisterDto)
    (hEmail : ∀ u ∈ st.users, u.email ≠ dto.email) :
    ((generateTokens env uid em role).accessToken.claims
        = { sub := uid, email := some em, role := some role.toStr, jti := none } ∧
     (generateTokens env uid em role).refreshToken.claims
        = { sub := uid, email := some em, role := some role.toStr, jti := none }) ∧
    ((register st env dto).result.toOption.map
        (fun r => (r.tokens.accessToken.claims, r.tokens.refreshToken.claims))
      = some ({ sub := env.userId, email := none, role := none, jti := none },
              { sub := env.userId, email := none, role := none,
                jti := some env.uuid })) := by
  refine ⟨⟨rfl, rfl⟩, ?_⟩
  rw [register_fresh_eq st env dto (find?_email_none st.users dto.email hEmail)]
  rfl
/-- An empty persistence state. -/
def emptyDb : DbState := { users := [], organizations := [], sessions := [] }

/-- Sample per-request inputs for concrete evaluation. -/
def sampleEnv : Env :=
  { now := 1000, orgId := "org1", userId := "user1", sessionId := "sess1",
    uuid := "uuid1", atSecret := "atS", rtSecret := "rtS", jwtSecret := "jwS",
    jwtExpiresIn := some "15m", jwtIssuer := some "iss",
    jwtAudience := some "aud", rtConfigSecret := "rjS",
    rtConfigExpiresIn := "7d" }

/-- A sample registration request. -/
def sampleRegDto : RegisterDto :=
  { email := "a@b.c", password := "pw", organizationName := "Org" }

/-- A stored active user whose hash matches the password "pw". -/
def sampleUser : Users :=
  { id := "user1", email := "a@b.c", passwordHash := bcryptHash "pw" 12,
    role := .OWNER, isActive := true, isEmailVerified := false,
    organizationId := "org1", projectIds := [], createdAt := 5,
    updatedAt := 5 }

/-- A state holding exactly the sample user. -/
def dbOne : DbState :=
  { users := [sampleUser], organizations := [], sessions := [] }

/-- The sample user, deactivated. -/
def inactiveUser : Users := { sampleUser with isActive := false }

/-- A state holding exactly the deactivated sample user. -/
def dbInactive : DbState :=
  { users := [inactiveUser], organizations := [], sessions := [] }

/-- A login request matching the sample user and its password. -/
def sampleLoginDto : LoginDto := { email := "a@b.c", password := "pw" }

/-- A login request for an email that is not stored. -/
def missingLoginDto : LoginDto := { email := "x@y.z", password := "pw" }

/-- A login request for the sample user with a wrong password. -/
def badLoginDto : LoginDto := { email := "a@b.c", password := "bad" }

/-- C1: the claim fails on the register path. At a concrete register
call the returned user record still contains the password hash field,
because the rest destructuring in register extracts no field before the
spread, while the login path does remove it; the declared register
return type omits passwordHash, documenting the intent the code
misses. -/
theorem register_response_contains_passwordHash :
    ((register emptyDb sampleEnv sampleRegDto).result.toOption.map
        (fun r => r.user.passwordHash)) = some (some (bcryptHash "pw" 12)) ∧
    ((login dbOne sampleEnv sampleLoginDto).result.toOption.map
        (fun r => r.user.passwordHash)) = some none :=
  ⟨rfl, rfl⟩

/-- C7 counterexample: at a concrete register call the claims of the
returned access token contain neither the email nor the role. -/
theorem register_token_claims_counterexample :
    ((register emptyDb sampleEnv sampleRegDto).result.toOption.map
        (fun r => (r.tokens.accessToken.claims.email,
                   r.tokens.accessToken.claims.role))) = some (none, none) :=
  rfl

/-- Witness for C2 at a state already holding the email. -/
theorem register_conflict_on_existing_email_witness :
    (∃ u ∈ dbOne.users, u.email = sampleRegDto.email) ∧
    ((register dbOne sampleEnv sampleRegDto).result
        = .error (.conflict "User with this email already exists") ∧
     (register dbOne sampleEnv sampleRegDto).state = dbOne) :=
  ⟨⟨sampleUser, by simp [dbOne], rfl⟩,
   register_conflict_on_existing_email dbOne sampleEnv sampleRegDto
     ⟨sampleUser, by simp [dbOne], rfl⟩⟩

/-- Witness for C3 at the empty state. -/
theorem register_fresh_email_creates_witness :
    (∀ u ∈ emptyDb.users, u.email ≠ sampleRegDto.email) ∧
    (∀ o ∈ emptyDb.organizations, o.id ≠ sampleEnv.orgId) ∧
    (∃ user org sess,
      (register emptyDb sampleEnv sampleRegDto).state.users
          = emptyDb.users ++ [user] ∧
      (register emptyDb sampleEnv sampleRegDto).state.organizations
          = emptyDb.organizations ++ [org] ∧
      (register emptyDb sampleEnv sampleRegDto).state.sessions
          = emptyDb.sessions ++ [sess] ∧
      user.role = UserRole.OWNER ∧ user.isActive = true ∧
      user.isEmailVerified = false ∧ org.userIds = some [user.id]) :=
  ⟨by simp [emptyDb], by simp [emptyDb],
   register_fresh_email_creates emptyDb sampleEnv sampleRegDto
     (by simp [emptyDb]) (by simp [emptyDb])⟩

/-- Witness for C4 at a state without the requested email. -/
theorem login_user_not_found_witness :
    (∀ u ∈ dbOne.users, u.email ≠ missingLoginDto.email) ∧
    ((login dbOne sampleEnv missingLoginDto).result
        = .error (.unauthorized "User not found") ∧
     (login dbOne sampleEnv missingLoginDto).didCompare = false) :=
  ⟨by decide,
   login_user_not_found dbOne sampleEnv missingLoginDto (by decide)⟩

/-- Witness for C5 at a state holding the deactivated user, with the
matching password supplied. -/
theorem login_inactive_user_witness :
    (dbInactive.users.find? (fun v => v.email == sampleLoginDto.email)
        = some inactiveUser ∧
     inactiveUser.isActive = false ∧
     bcryptCompare sampleLoginDto.password inactiveUser.passwordHash = true) ∧
    (login dbInactive sampleEnv sampleLoginDto).result
      = .error (.unauthorized "User account is deactivated") :=
  ⟨⟨rfl, rfl, rfl⟩,
   login_inactive_user dbInactive sampleEnv sampleLoginDto inactiveUser
     rfl rfl rfl⟩

/-- Witness for C6 at a state holding the active sample user, with the
matching password supplied. -/
theorem login_success_token_subject_witness :
    (dbOne.users.find? (fun v => v.email == sampleLoginDto.email)
        = some sampleUser ∧
     sampleUser.isActive = true ∧
     bcryptCompare sampleLoginDto.password sampleUser.passwordHash = true) ∧
    (∃ r, (login dbOne sampleEnv sampleLoginDto).result = .ok r ∧
      r.tokens.accessToken.claims.sub = sampleUser.id ∧
      r.tokens.refreshToken.claims.sub = sampleUser.id) :=
  ⟨⟨rfl, rfl, rfl⟩,
   login_success_token_subject dbOne sampleEnv sampleLoginDto sampleUser
     rfl rfl rfl⟩

/-- Witness for C10 at a login call failing on a wrong password. -/
theorem login_error_no_write_witness :
    ((login dbOne sampleEnv badLoginDto).result
        = .error (.unauthorized "Password is incorrect")) ∧
    ((login dbOne sampleEnv badLoginDto).state = dbOne ∧
     (login dbOne sampleEnv badLoginDto).didFlush = false) :=
  ⟨rfl,
   login_error_no_write dbOne sampleEnv badLoginDto
     (.unauthorized "Password is incorrect") rfl⟩

/-- Witness for C8: register at the empty state, login at the sample
state. -/
theorem register_session_login_no_session_witness :
    (∀ u ∈ emptyDb.users, u.email ≠ sampleRegDto.email) ∧
    ((∃ s, (register emptyDb sampleEnv sampleRegDto).state.sessions
          = emptyDb.sessions ++ [s] ∧
        s.expiresAt = s.createdAt + 7 * 24 * 60 * 60 * 1000 ∧
        s.revoked = false) ∧
     (login dbOne sampleEnv sampleLoginDto).state.sessions
        = dbOne.sessions) :=
  ⟨by simp [emptyDb],
   register_session_login_no_session emptyDb sampleEnv sampleRegDto
     dbOne sampleEnv sampleLoginDto (by simp [emptyDb])⟩

/-- Witness for C9 at the sample state and the stored user id. -/
theorem validateUser_spec_witness :
    (∀ u, validateUser dbOne "user1" = some u →
        u ∈ dbOne.users ∧ u.id = "user1" ∧ u.isActive = true) ∧
    (validateUser dbOne "user1" = none ↔
        ∀ u ∈ dbOne.users, ¬(u.id = "user1" ∧ u.isActive = true)) :=
  validateUser_spec dbOne "user1"

/-- Witness for C7 at the empty state. -/
theorem token_claims_by_path_witness :
    (∀ u ∈ emptyDb.users, u.email ≠ sampleRegDto.email) ∧
    (((generateTokens sampleEnv "user1" "a@b.c" UserRole.OWNER).accessToken.claims
        = { sub := "user1", email := some "a@b.c",
            role := some UserRole.OWNER.toStr, jti := none } ∧
      (generateTokens sampleEnv "user1" "a@b.c" UserRole.OWNER).refreshToken.claims
        = { sub := "user1", email := some "a@b.c",
            role := some UserRole.OWNER.toStr, jti := none }) ∧
     ((register emptyDb sampleEnv sampleRegDto).result.toOption.map
        (fun r => (r.tokens.accessToken.claims, r.tokens.refreshToken.claims))
      = some ({ sub := sampleEnv.userId, email := none, role := none,
                jti := none },
              { sub := sampleEnv.userId, email := none, role := none,
                jti := some sampleEnv.uuid }))) :=
  ⟨by simp [emptyDb],
   token_claims_by_path sampleEnv "user1" "a@b.c" UserRole.OWNER emptyDb
     sampleRegDto (by simp [emptyDb])⟩
end AuthSvc
